import Mathlib

/-!
Verification of the host-dispatcher (`src/server.ts`) of an IPC proxy
library.  The dispatcher binds a target object to a channel, answers
Get/Apply/Subscribe/Unsubscribe requests, tracks live stream
subscriptions and marshals results and errors back to the sender.

The embedding models JavaScript values only as far as the dispatcher
inspects them: truthiness, `typeof`, property access on the target,
function invocation with an explicit receiver, and the presence of a
callable `subscribe` member.  Stateful code (the registration table,
each dispatcher's subscription table, and the rxjs subscription handles
it creates) is modelled by explicit state passing; messages pushed to
the sender are returned as explicit lists.
-/

namespace Ipc

/-- A primitive JavaScript value, as far as the dispatcher distinguishes
them.  Objects and functions appear separately in `Member`. -/
inductive JsLit where
  | undef
  | nullV
  | boolV (b : Bool)
  | num (n : Int)
  | str (s : String)
deriving DecidableEq, Repr

/-- JavaScript truthiness of a primitive value. -/
def JsLit.truthy : JsLit → Bool
  | .undef => false
  | .nullV => false
  | .boolV b => b
  | .num n => n != 0
  | .str s => s != ""

/-- A JavaScript error value: its class name and its message
(`Errio` round-trips exactly these two, per the wire-protocol
contract). -/
structure JsError where
  name : String
  message : String
deriving DecidableEq, Repr

/-- Rendering of an error (`Error.prototype.toString`):
`"<name>: <message>"`. -/
def JsError.render (e : JsError) : String :=
  e.name ++ ": " ++ e.message

/-- The receiver (`this`) a target method is invoked with.  A method of
the target either sees the target's own plain data fields (`self`) or
does not see the target at all (`notTarget`: the unbound call
`func(...args)` passes `undefined` in strict mode / the global object
in sloppy mode — in either mode, not the target). -/
inductive Receiver where
  | notTarget
  | self (fields : List (String × JsLit))

/-- One member of the target object, as far as the dispatcher's
`typeof`/truthiness tests and invocations distinguish members: a plain
primitive value, a callable (whose behaviour may depend on the
receiver it is invoked with), or an observable (an object exposing a
callable `subscribe`).  A missing property reads as `lit .undef`. -/
inductive Member where
  | lit (v : JsLit)
  | fn (f : Receiver → List JsLit → Except JsError Member)
  | stream

/-- The target object: its named members. -/
abbrev Target := List (String × Member)

/-- Association-list lookup (string-keyed JS object read). -/
def alookup {α : Type} : List (String × α) → String → Option α
  | [], _ => none
  | (k, v) :: tl, key => if k == key then some v else alookup tl key

/-- Association-list update (string-keyed JS object assignment):
replaces the value at the key, or appends the key. -/
def aset {α : Type} : List (String × α) → String → α → List (String × α)
  | [], key, v => [(key, v)]
  | (k, w) :: tl, key, v =>
      if k == key then (k, v) :: tl else (k, w) :: aset tl key v

/-- Association-list removal (JS `delete obj[key]`). -/
def aremove {α : Type} : List (String × α) → String → List (String × α)
  | [], _ => []
  | (k, v) :: tl, key =>
      if k == key then aremove tl key else (k, v) :: aremove tl key

/-- Property read `target[propKey]`: a missing property is
`undefined`. -/
def getProp (t : Target) (propKey : String) : Member :=
  (alookup t propKey).getD (.lit .undef)

/-- JavaScript truthiness of a member value (functions and objects are
always truthy). -/
def Member.truthy : Member → Bool
  | .lit v => v.truthy
  | .fn _ => true
  | .stream => true

/-- The string `typeof value` evaluates to. -/
def Member.typeofStr : Member → String
  | .lit .undef => "undefined"
  | .lit .nullV => "object"
  | .lit (.boolV _) => "boolean"
  | .lit (.num _) => "number"
  | .lit (.str _) => "string"
  | .fn _ => "function"
  | .stream => "object"

/-- The string `typeof value.subscribe` evaluates to: only observables
carry a callable `subscribe` member in this model. -/
def Member.subscribeTypeofStr : Member → String
  | .stream => "function"
  | _ => "undefined"

/-- `isFunction` (server.ts lines 128-130):
`value && typeof value === 'function'`. -/
def isFunction (value : Member) : Bool :=
  value.truthy && (value.typeofStr == "function")

/-- `isObservable` (server.ts lines 132-134):
`value && typeof value.subscribe === 'function'`. -/
def isObservable (value : Member) : Bool :=
  value.truthy && (value.subscribeTypeofStr == "function")

/-- Invocation of a member with an explicit receiver.  Calling a
non-function raises a `TypeError` (never reached behind the
`isFunction` guard). -/
def Member.invoke (m : Member) (recv : Receiver) (args : List JsLit) :
    Except JsError Member :=
  match m with
  | .fn f => f recv args
  | _ => .error ⟨"TypeError", "value is not a function"⟩

/-- The target's plain data fields, as seen by a method invoked with
the target itself as receiver. -/
def litFields (t : Target) : List (String × JsLit) :=
  t.filterMap (fun p =>
    match p.2 with
    | .lit v => some (p.1, v)
    | _ => none)

/-- Every error the dispatcher itself throws, one constructor per
`throw` site of server.ts, plus errors raised by the target's own
members. -/
inductive ServerError where
  | duplicateRegistration (channel : String)
  | notRegistered (channel : String)
  | unhandledRequestType (typeName : String)
  | notAFunction (propKey : String)
  | duplicateSubscription (subscriptionId : String)
  | notAnObservable (propKey : String)
  | subscriptionNotFound (subscriptionId : String)
  | fromTarget (e : JsError)
deriving DecidableEq, Repr

/-- The message string of each thrown error, verbatim from server.ts
(lines 17, 38, 61, 79, 89, 95, 112). -/
def ServerError.message : ServerError → String
  | .duplicateRegistration channel =>
      "Proxy object has already been registered on channel " ++ channel
  | .notRegistered channel =>
      "No proxy is registered on channel " ++ channel
  | .unhandledRequestType t =>
      "Unhandled RequestType [" ++ t ++ "]"
  | .notAFunction propKey =>
      "Property [" ++ propKey ++ "] is not a function"
  | .duplicateSubscription subscriptionId =>
      "A subscription with Id [" ++ subscriptionId ++ "] already exists"
  | .notAnObservable propKey =>
      "Property [" ++ propKey ++ "] is not an observable"
  | .subscriptionNotFound subscriptionId =>
      "Subscription with Id [" ++ subscriptionId ++ "] does not exist"
  | .fromTarget e => e.message

/-- The error class name: every dispatcher `throw` site constructs a
plain `new Error(...)`, so the name is `"Error"`; an error raised by a
target member keeps its own class name. -/
def ServerError.name : ServerError → String
  | .fromTarget e => e.name
  | _ => "Error"

/-- The dispatcher error as a JavaScript error value. -/
def ServerError.toJsError (e : ServerError) : JsError :=
  ⟨e.name, e.message⟩

/-- Models the external `Errio.stringify`: a serialization preserving
the error's class name and message. -/
def errioStringify (e : JsError) : String :=
  "\x7b\"name\":\"" ++ e.name ++ "\",\"message\":\"" ++ e.message ++ "\"\x7d"

/-- One rxjs subscription handle created by `obs.subscribe(...)`
(server.ts line 98): whether it still delivers events (`active`
becomes false on `unsubscribe()` or on a native terminal event), how
often `unsubscribe()` has been called on it, and the `subscriptionId`
its observers were closed over. -/
structure Handle where
  active : Bool
  cancels : Nat
  subId : String
deriving DecidableEq, Repr

/-- The per-channel dispatcher (`class ProxyServerHandler`, server.ts
lines 45-126): the bound target and the subscription table
`this.subscriptions`, mapping a subscriptionId to the index of its
rxjs handle in the process-wide handle list. -/
structure ProxyServerHandler where
  target : Target
  subscriptions : List (String × Nat)

/-- A message pushed through `sender.send(dest, payload)`. -/
inductive Payload where
  | result (m : Member)
  | next (v : JsLit)
  | errorP (serialized : String)
  | complete

/-- One `sender.send` call: destination id (correlation id or
subscription id) and payload. -/
structure Sent where
  dest : String
  payload : Payload

/-- Request shapes per the wire protocol (`common.ts` is not part of
the excerpt; the field shapes follow spec §3, and the dispatcher
destructures exactly these fields).  `other` covers any request whose
type is none of the four handled ones. -/
structure GetRequest where
  propKey : String

structure ApplyRequest where
  propKey : String
  args : List JsLit

structure SubscribeRequest where
  propKey : String
  args : Option (List JsLit)
  subscriptionId : String

structure UnsubscribeRequest where
  subscriptionId : String

inductive Request where
  | get (r : GetRequest)
  | apply (r : ApplyRequest)
  | subscribe (r : SubscribeRequest)
  | unsubscribe (r : UnsubscribeRequest)
  | other (typeName : String)

/-- Mark the handle at index `i` as cancelled by an `unsubscribe()`
call: it stops delivering and its cancel count goes up. -/
def cancelAt : List Handle → Nat → List Handle
  | [], _ => []
  | hd :: tl, 0 => ⟨false, hd.cancels + 1, hd.subId⟩ :: tl
  | hd :: tl, n + 1 => hd :: cancelAt tl n

/-- Mark the handle at index `i` as closed by a native terminal event
(rxjs closes a subscription on error/complete without this counting as
an `unsubscribe()` call). -/
def closeAt : List Handle → Nat → List Handle
  | [], _ => []
  | hd :: tl, 0 => ⟨false, hd.cancels, hd.subId⟩ :: tl
  | hd :: tl, n + 1 => hd :: closeAt tl n

/-- `handleGet` (server.ts lines 70-72): return `target[propKey]`. -/
def handleGet (h : ProxyServerHandler) (request : GetRequest) : Member :=
  getProp h.target request.propKey

/-- `handleApply` (server.ts lines 74-83): read
`const func = this.target[propKey]`; if `!isFunction(func)` throw
`Property [propKey] is not a function`; else call `func(...args)` —
an unbound call, so the receiver is NOT the target
(`Receiver.notTarget`). -/
def handleApply (h : ProxyServerHandler) (request : ApplyRequest) :
    Except ServerError Member :=
  let func := getProp h.target request.propKey
  if !(isFunction func) then
    .error (.notAFunction request.propKey)
  else
    (func.invoke Receiver.notTarget request.args).mapError .fromTarget

/-- `handleSubscribe` (server.ts lines 85-106): destructures only
`propKey` and `subscriptionId` from the request (`args` is ignored);
throws on a duplicate id; reads `const obs = this.target[propKey]`
(the member itself, never invoked); throws if `!isObservable(obs)`;
otherwise stores `obs.subscribe(...)` in the subscription table (a new
active handle, whose observers are closed over `subscriptionId`).  The
`sender.once('destroyed', ...)` fallback of line 105 is modelled by
`onSenderDestroyed` below. -/
def handleSubscribe (h : ProxyServerHandler) (handles : List Handle)
    (request : SubscribeRequest) :
    Except ServerError (ProxyServerHandler × List Handle) :=
  let propKey := request.propKey
  let subscriptionId := request.subscriptionId
  if (alookup h.subscriptions subscriptionId).isSome then
    .error (.duplicateSubscription subscriptionId)
  else
    let obs := getProp h.target propKey
    if !(isObservable obs) then
      .error (.notAnObservable propKey)
    else
      .ok ({ h with subscriptions :=
               (aset h.subscriptions subscriptionId handles.length) },
           handles ++ [⟨true, 0, subscriptionId⟩])

/-- `doUnsubscribe` (server.ts lines 118-125): if the table has the id,
call `unsubscribe()` on the stored handle and delete the entry;
otherwise do nothing. -/
def doUnsubscribe (h : ProxyServerHandler) (handles : List Handle)
    (subscriptionId : String) : ProxyServerHandler × List Handle :=
  match alookup h.subscriptions subscriptionId with
  | some idx =>
      ({ h with subscriptions := aremove h.subscriptions subscriptionId },
       cancelAt handles idx)
  | none => (h, handles)

/-- `handleUnsubscribe` (server.ts lines 108-116): throw if the id is
absent from the table, else `doUnsubscribe`. -/
def handleUnsubscribe (h : ProxyServerHandler) (handles : List Handle)
    (request : UnsubscribeRequest) :
    Except ServerError (ProxyServerHandler × List Handle) :=
  if (alookup h.subscriptions request.subscriptionId).isNone then
    .error (.subscriptionNotFound request.subscriptionId)
  else
    .ok (doUnsubscribe h handles request.subscriptionId)

/-- `unsubscribeAll` (server.ts lines 65-68): call `unsubscribe()` on
every stored handle, then reset the table to empty. -/
def unsubscribeAll (h : ProxyServerHandler) (handles : List Handle) :
    ProxyServerHandler × List Handle :=
  ({ h with subscriptions := [] },
   h.subscriptions.foldl (fun hs p => cancelAt hs p.2) handles)

/-- The `sender.once('destroyed', () => this.doUnsubscribe(subscriptionId))`
fallback (server.ts line 105): fired when the sender's connection
ends.  `doUnsubscribe` performs no `sender.send`, hence the empty
message list. -/
def onSenderDestroyed (h : ProxyServerHandler) (handles : List Handle)
    (subscriptionId : String) :
    ProxyServerHandler × List Handle × List Sent :=
  let r := doUnsubscribe h handles subscriptionId
  (r.1, r.2, [])

/-- A stream value event reaching the observer of server.ts line 99:
rxjs invokes the observer only while the subscription is active; the
observer sends `Next` and touches no dispatcher state. -/
def deliverNext (handles : List Handle) (idx : Nat) (v : JsLit) :
    List Handle × List Sent :=
  match handles[idx]? with
  | some hd =>
      if hd.active then (handles, [⟨hd.subId, .next v⟩]) else (handles, [])
  | none => (handles, [])

/-- A terminal stream error reaching the observer of server.ts line
100: if the subscription is still active, rxjs closes it and the
observer sends the serialized error.  The observer does NOT touch the
subscription table (`this.subscriptions`). -/
def deliverError (handles : List Handle) (idx : Nat) (e : JsError) :
    List Handle × List Sent :=
  match handles[idx]? with
  | some hd =>
      if hd.active then
        (closeAt handles idx, [⟨hd.subId, .errorP (errioStringify e)⟩])
      else (handles, [])
  | none => (handles, [])

/-- Natural stream completion reaching the observer of server.ts line
101: if the subscription is still active, rxjs closes it and the
observer sends `Complete`.  The observer does NOT touch the
subscription table. -/
def deliverComplete (handles : List Handle) (idx : Nat) :
    List Handle × List Sent :=
  match handles[idx]? with
  | some hd =>
      if hd.active then (closeAt handles idx, [⟨hd.subId, .complete⟩])
      else (handles, [])
  | none => (handles, [])

/-- `handleRequest` (server.ts lines 50-63): dispatch on the request
type; any other type throws `Unhandled RequestType [...]`.  The
successful value is the one handed to the `.then` continuation
(`handleSubscribe`/`handleUnsubscribe` return `undefined`). -/
def handleRequest (h : ProxyServerHandler) (handles : List Handle)
    (request : Request) :
    Except ServerError (Member × ProxyServerHandler × List Handle) :=
  match request with
  | .get r => .ok (handleGet h r, h, handles)
  | .apply r => (handleApply h r).map (fun v => (v, h, handles))
  | .subscribe r =>
      (handleSubscribe h handles r).map (fun p => (.lit .undef, p.1, p.2))
  | .unsubscribe r =>
      (handleUnsubscribe h handles r).map (fun p => (.lit .undef, p.1, p.2))
  | .other t => .error (.unhandledRequestType t)

/-- The channel listener installed by `registerProxy` (server.ts lines
23-28): `handleRequest(...).then(result => sender.send(correlationId,
{Result, result})).catch(error => sender.send(correlationId, {Error,
Errio.stringify(error)}))`.  A thrown error leaves the dispatcher
state unchanged (every throw site of the handlers precedes any
mutation). -/
def channelListener (h : ProxyServerHandler) (handles : List Handle)
    (request : Request) (correlationId : String) :
    ProxyServerHandler × List Handle × List Sent :=
  match handleRequest h handles request with
  | .ok (result, h', hs') => (h', hs', [⟨correlationId, .result result⟩])
  | .error e =>
      (h, handles, [⟨correlationId, .errorP (errioStringify e.toJsError)⟩])

/-- The process-wide state of the host side: the registration table
`registrations` (server.ts line 11 — a key can be present with value
`null`, which is distinct from being absent), the channels on which
`transport.on` has installed a listener, and the rxjs handles created
by all dispatchers. -/
structure ServerWorld where
  registrations : List (String × Option ProxyServerHandler)
  listeners : List String
  handles : List Handle

/-- The truthiness test `if (registrations[channel])` (server.ts line
16): true only when the key is present with a non-null handler
(objects are truthy; both `undefined` and `null` are falsy). -/
def truthyReg (w : ServerWorld) (channel : String) : Bool :=
  match alookup w.registrations channel with
  | some (some _) => true
  | _ => false

/-- `registerProxy` (server.ts lines 13-31): throw
`DuplicateRegistration` if the channel entry is truthy; otherwise
create a fresh handler bound to the target, store it, and install the
channel listener.  (The returned closure is
`() => unregisterProxy(channel, transport)`.) -/
def registerProxy (w : ServerWorld) (target : Target) (channel : String) :
    Except ServerError ServerWorld :=
  if truthyReg w channel then
    .error (.duplicateRegistration channel)
  else
    .ok { registrations :=
            (aset w.registrations channel (some ⟨target, []⟩)),
          listeners := channel :: w.listeners,
          handles := w.handles }

/-- `unregisterProxy` (server.ts lines 33-43): first
`transport.removeAllListeners(channel)`; then if the entry is falsy
(absent or null) throw `NotRegistered` — the listener removal has
already happened, hence the state-and-error pair; otherwise
`server.unsubscribeAll()` (cancelling every handle the dispatcher
holds) and set the entry to `null` (the key stays present). -/
def unregisterProxy (channel : String) (w : ServerWorld) :
    ServerWorld × Option ServerError :=
  let w1 : ServerWorld :=
    { w with listeners := w.listeners.filter (fun c => c != channel) }
  match alookup w1.registrations channel with
  | some (some server) =>
      let r := unsubscribeAll server w1.handles
      ({ w1 with handles := r.2,
                 registrations := (aset w1.registrations channel none) },
       none)
  | _ => (w1, some (.notRegistered channel))

/-- Modelled from the spec (§4.2 `Subscribe`), for comparison with the
source's `handleSubscribe`: "Read `target[propKey]`; if `args`
present, treat it as callable and invoke with `args` to obtain the
stream, else use the member directly; if the result is not
stream-shaped, fail with `NotAStream`." -/
def handleSubscribeSpec (h : ProxyServerHandler) (handles : List Handle)
    (request : SubscribeRequest) :
    Except ServerError (ProxyServerHandler × List Handle) :=
  let propKey := request.propKey
  let subscriptionId := request.subscriptionId
  if (alookup h.subscriptions subscriptionId).isSome then
    .error (.duplicateSubscription subscriptionId)
  else
    let memberVal := getProp h.target propKey
    let obsE : Except ServerError Member :=
      match request.args with
      | some args =>
          (memberVal.invoke (Receiver.self (litFields h.target)) args).mapError
            .fromTarget
      | none => .ok memberVal
    match obsE with
    | .error e => .error e
    | .ok obs =>
        if !(isObservable obs) then
          .error (.notAnObservable propKey)
        else
          .ok ({ h with subscriptions :=
                   (aset h.subscriptions subscriptionId handles.length) },
               handles ++ [⟨true, 0, subscriptionId⟩])

/-- Modelled from the spec (§4.2 `Apply`), for comparison with the
source's `handleApply`: invoke the member "preserving the target
object as the receiver (so methods that read the target's own state
behave as if called directly on it)". -/
def handleApplySpec (h : ProxyServerHandler) (request : ApplyRequest) :
    Except ServerError Member :=
  let func := getProp h.target request.propKey
  if !(isFunction func) then
    .error (.notAFunction request.propKey)
  else
    (func.invoke (Receiver.self (litFields h.target)) request.args).mapError
      .fromTarget

/-- The full effect on the dispatcher of a native terminal stream
error: the only code that runs is the observer of server.ts line 100,
so the dispatcher's subscription table is untouched. -/
def streamErrorEvent (h : ProxyServerHandler) (handles : List Handle)
    (idx : Nat) (e : JsError) :
    ProxyServerHandler × List Handle × List Sent :=
  (h, deliverError handles idx e)

/-- The full effect on the dispatcher of natural stream completion:
the only code that runs is the observer of server.ts line 101, so the
dispatcher's subscription table is untouched. -/
def streamCompleteEvent (h : ProxyServerHandler) (handles : List Handle)
    (idx : Nat) : ProxyServerHandler × List Handle × List Sent :=
  (h, deliverComplete handles idx)

/-- Models `returnStringMember() { return this.stringMemberSync; }`
from the repository's test target: invoked with the target as
receiver it reads the field; the strict-mode unbound call sees
`undefined` and raises a `TypeError` (a sloppy-mode call would read
the global object instead — in either mode, not the target). -/
def returnStringMemberFn : Receiver → List JsLit → Except JsError Member :=
  fun recv _ =>
    match recv with
    | .self fields =>
        .ok (.lit ((alookup fields "stringMemberSync").getD .undef))
    | .notTarget => .error ⟨"TypeError", "Cannot read properties of undefined"⟩

/-- Models `makeObservable = (...args) => of(...args)` from the
repository's test target: a callable returning an observable. -/
def makeObservableFn : Receiver → List JsLit → Except JsError Member :=
  fun _ _ => .ok Member.stream

/-- The relevant members of the repository's test target
(`ProxiedClass` in test/test.ts). -/
def testTarget : Target :=
  [("stringMemberSync", .lit (.str "a string")),
   ("returnStringMember", .fn returnStringMemberFn),
   ("makeObservable", .fn makeObservableFn)]

/-- Concrete dispatcher with one open subscription, for witnesses. -/
def handlerS1 : ProxyServerHandler := ⟨[], [("s1", 0)]⟩

/-- Concrete handle list with one active handle, for witnesses. -/
def handlesS1 : List Handle := [⟨true, 0, "s1"⟩]

/-- Concrete host world with one registered channel, for witnesses. -/
def worldS1 : ServerWorld := ⟨[("chan", some handlerS1)], ["chan"], handlesS1⟩

theorem alookup_aset_self {α : Type} (l : List (String × α)) (k : String)
    (v : α) : alookup (aset l k v) k = some v := by
  induction l with
  | nil => simp [aset, alookup]
  | cons p tl ih =>
    obtain ⟨pk, pv⟩ := p
    cases hpk : (pk == k) with
    | true => simp [aset, hpk, alookup]
    | false => simp [aset, hpk, alookup, ih]

theorem alookup_aremove_self {α : Type} (l : List (String × α))
    (k : String) : alookup (aremove l k) k = none := by
  induction l with
  | nil => simp [aremove, alookup]
  | cons p tl ih =>
    obtain ⟨pk, pv⟩ := p
    cases hpk : (pk == k) with
    | true => simp [aremove, hpk, ih]
    | false => simp [aremove, hpk, alookup, ih]

theorem cancelAt_length (hs : List Handle) (i : Nat) :
    (cancelAt hs i).length = hs.length := by
  induction hs generalizing i with
  | nil => rfl
  | cons hd tl ih =>
    cases i with
    | zero => rfl
    | succ n => simp [cancelAt, ih]

theorem cancelAt_getElem? (hs : List Handle) (i j : Nat) :
    (cancelAt hs i)[j]? =
      if i = j then
        (hs[j]?).map (fun hd => ⟨false, hd.cancels + 1, hd.subId⟩)
      else hs[j]? := by
  induction hs generalizing i j with
  | nil => cases i <;> cases j <;> simp [cancelAt]
  | cons hd tl ih =>
    cases i with
    | zero =>
      cases j with
      | zero => simp [cancelAt]
      | succ m => simp [cancelAt]
    | succ n =>
      cases j with
      | zero => simp [cancelAt]
      | succ m => simpa [cancelAt] using ih n m

theorem foldl_cancelAt_length (subs : List (String × Nat))
    (hs : List Handle) :
    (subs.foldl (fun a p => cancelAt a p.2) hs).length = hs.length := by
  induction subs generalizing hs with
  | nil => rfl
  | cons p tl ih => rw [List.foldl_cons, ih, cancelAt_length]

theorem foldl_cancelAt_preserves_inactive (subs : List (String × Nat))
    (hs : List Handle) (j : Nat)
    (h : ∃ hd, hs[j]? = some hd ∧ hd.active = false) :
    ∃ hd, (subs.foldl (fun a p => cancelAt a p.2) hs)[j]? = some hd ∧
      hd.active = false := by
  induction subs generalizing hs with
  | nil => exact h
  | cons p tl ih =>
    rw [List.foldl_cons]
    apply ih
    obtain ⟨hd, hget, hact⟩ := h
    rw [cancelAt_getElem?]
    by_cases hij : p.2 = j
    · rw [if_pos hij, hget]
      exact ⟨_, rfl, rfl⟩
    · rw [if_neg hij]
      exact ⟨hd, hget, hact⟩

theorem foldl_cancelAt_inactive (subs : List (String × Nat))
    (hs : List Handle) (j : Nat) (sid : String)
    (hmem : (sid, j) ∈ subs) (hlt : j < hs.length) :
    ∃ hd, (subs.foldl (fun a p => cancelAt a p.2) hs)[j]? = some hd ∧
      hd.active = false := by
  induction subs generalizing hs with
  | nil => cases hmem
  | cons p tl ih =>
    rw [List.foldl_cons]
    rcases List.mem_cons.mp hmem with heq | htl
    · apply foldl_cancelAt_preserves_inactive
      have hj : p.2 = j := by rw [← heq]
      have hsome := List.getElem?_eq_getElem hlt
      rw [cancelAt_getElem?, if_pos hj, hsome]
      exact ⟨_, rfl, rfl⟩
    · exact ih (cancelAt hs p.2) htl (by rw [cancelAt_length]; exact hlt)

theorem deliverError_inactive (hs : List Handle) (i : Nat) (e : JsError)
    (h : ∃ hd, hs[i]? = some hd ∧ hd.active = false) :
    deliverError hs i e = (hs, []) := by
  obtain ⟨hd, hget, hact⟩ := h
  simp [deliverError, hget, hact]

theorem deliverComplete_inactive (hs : List Handle) (i : Nat)
    (h : ∃ hd, hs[i]? = some hd ∧ hd.active = false) :
    deliverComplete hs i = (hs, []) := by
  obtain ⟨hd, hget, hact⟩ := h
  simp [deliverComplete, hget, hact]

theorem deliverNext_inactive (hs : List Handle) (i : Nat) (v : JsLit)
    (h : ∃ hd, hs[i]? = some hd ∧ hd.active = false) :
    deliverNext hs i v = (hs, []) := by
  obtain ⟨hd, hget, hact⟩ := h
  simp [deliverNext, hget, hact]

/-- Claim C1: a Subscribe request whose args are present should invoke
the callable member with the args to obtain the stream (and fail with
NotAStream only if the obtained value is not stream-shaped).  The
source's `handleSubscribe` instead destructures only propKey and
subscriptionId, ignores args, and tests the member itself for stream
shape: on the test target's callable `makeObservable` it fails with
the not-an-observable error, while the spec-modelled handler obtains
the stream and succeeds. -/
theorem C1_subscribe_ignores_args :
    handleSubscribe ⟨testTarget, []⟩ []
        ⟨"makeObservable", some [.num 1, .num 2], "s1"⟩ =
      .error (.notAnObservable "makeObservable") ∧
    handleSubscribeSpec ⟨testTarget, []⟩ []
        ⟨"makeObservable", some [.num 1, .num 2], "s1"⟩ =
      .ok (⟨testTarget, [("s1", 0)]⟩, [⟨true, 0, "s1"⟩]) :=
  ⟨rfl, rfl⟩

/-- Claim C2: an Apply on a callable member should preserve the target
object as the call receiver, so a method reading the target state
behaves as if called directly on it.  The source's `handleApply`
extracts the member and calls it unbound, so the receiver is not the
target: on the test target's method `returnStringMember` (which reads
the field stringMemberSync) the call fails, while the spec-modelled
receiver-preserving invocation returns the field value. -/
theorem C2_apply_unbound_receiver :
    handleApply ⟨testTarget, []⟩ ⟨"returnStringMember", []⟩ =
      .error (.fromTarget
        ⟨"TypeError", "Cannot read properties of undefined"⟩) ∧
    handleApplySpec ⟨testTarget, []⟩ ⟨"returnStringMember", []⟩ =
      .ok (.lit (.str "a string")) :=
  ⟨rfl, rfl⟩

/-- Claim C3: an Apply whose propKey is not a callable member should
fail with a message of the form Remote property [propKey] is not a
function (the repository's own test asserts the rendered form
IpcProxyError: Remote property [missingFunction] is not a function).
The source's `handleApply` instead throws a plain Error whose message
is Property [missingFunction] is not a function, so the rendered form
differs from the one the claim and the test require. -/
theorem C3_notAFunction_message :
    handleApply ⟨testTarget, []⟩ ⟨"missingFunction", []⟩ =
      .error (.notAFunction "missingFunction") ∧
    (ServerError.notAFunction "missingFunction").toJsError.render =
      "Error: Property [missingFunction] is not a function" ∧
    (ServerError.notAFunction "missingFunction").toJsError.render ≠
      "IpcProxyError: Remote property [missingFunction] is not a function" :=
  ⟨rfl, rfl, by decide⟩

/-- Claim C4, counterexample: the claim says a native terminal stream
event makes the dispatcher drop the subscriptionId entry from its
subscription table.  On a concrete dispatcher holding subscription s1,
a terminal stream error sends the Error message yet the table still
maps s1 (and likewise after natural completion), so the entry is not
dropped. -/
theorem C4_counterexample :
    (streamErrorEvent handlerS1 handlesS1 0 ⟨"Error", "boom"⟩).2.2 =
      [⟨"s1", .errorP (errioStringify ⟨"Error", "boom"⟩)⟩] ∧
    alookup (streamErrorEvent handlerS1 handlesS1 0
        ⟨"Error", "boom"⟩).1.subscriptions "s1" = some 0 ∧
    (streamCompleteEvent handlerS1 handlesS1 0).2.2 = [⟨"s1", .complete⟩] ∧
    alookup (streamCompleteEvent handlerS1 handlesS1 0).1.subscriptions
      "s1" = some 0 :=
  ⟨rfl, rfl, rfl, rfl⟩

/-- Claim C4 as amended: when an open subscription's stream terminates
natively, the dispatcher sends the terminal Error (serialized) or
Complete message for that subscriptionId, but leaves the dispatcher's
subscription-table entry in place — entries are removed only by
Unsubscribe, by sender disconnection, or by unregistration. -/
theorem C4_terminal_message_entry_kept (h : ProxyServerHandler)
    (handles : List Handle) (idx : Nat) (hd : Handle) (e : JsError)
    (hget : handles[idx]? = some hd) (hact : hd.active = true) :
    (streamErrorEvent h handles idx e).1 = h ∧
    (streamErrorEvent h handles idx e).2.2 =
      [⟨hd.subId, .errorP (errioStringify e)⟩] ∧
    (streamCompleteEvent h handles idx).1 = h ∧
    (streamCompleteEvent h handles idx).2.2 = [⟨hd.subId, .complete⟩] := by
  refine ⟨rfl, ?_, rfl, ?_⟩ <;>
    simp [streamErrorEvent, streamCompleteEvent, deliverError,
      deliverComplete, hget, hact]

/-- Witness for C4's amended theorem at a concrete dispatcher. -/
theorem C4_terminal_message_entry_kept_witness :
    handlesS1[0]? = some ⟨true, 0, "s1"⟩ ∧
    ((streamErrorEvent handlerS1 handlesS1 0 ⟨"Error", "boom"⟩).1 =
        handlerS1 ∧
     (streamErrorEvent handlerS1 handlesS1 0 ⟨"Error", "boom"⟩).2.2 =
       [⟨"s1", .errorP (errioStringify ⟨"Error", "boom"⟩)⟩] ∧
     (streamCompleteEvent handlerS1 handlesS1 0).1 = handlerS1 ∧
     (streamCompleteEvent handlerS1 handlesS1 0).2.2 =
       [⟨"s1", .complete⟩]) :=
  ⟨rfl, C4_terminal_message_entry_kept handlerS1 handlesS1 0
    ⟨true, 0, "s1"⟩ ⟨"Error", "boom"⟩ rfl rfl⟩

/-- Claim C9: a request whose type is none of Get, Apply, Subscribe or
Unsubscribe is not left unanswered: `handleRequest` raises the
Unhandled-RequestType error, and the channel listener catches it and
sends the serialized error back on the correlation id. -/
theorem C9_unhandled_request_type (h : ProxyServerHandler)
    (handles : List Handle) (t : String) (correlationId : String) :
    handleRequest h handles (.other t) = .error (.unhandledRequestType t) ∧
    (ServerError.unhandledRequestType t).message =
      "Unhandled RequestType [" ++ t ++ "]" ∧
    channelListener h handles (.other t) correlationId =
      (h, handles,
       [⟨correlationId,
         .errorP (errioStringify (ServerError.unhandledRequestType t).toJsError)⟩]) :=
  ⟨rfl, rfl, rfl⟩

/-- Claim C5: invoking the unregister function on a still-registered
channel removes the transport listener for that channel, cancels every
live subscription owned by the dispatcher instance, and clears the
registration entry (stores null); invoking it on an already
unregistered channel fails with the NotRegistered error. -/
theorem C5_unregister (w : ServerWorld) (channel : String) :
    (∀ server, alookup w.registrations channel = some (some server) →
      (unregisterProxy channel w).2 = none ∧
      channel ∉ (unregisterProxy channel w).1.listeners ∧
      alookup (unregisterProxy channel w).1.registrations channel =
        some none ∧
      (∀ sid idx, (sid, idx) ∈ server.subscriptions →
        idx < w.handles.length →
        ∃ hd, ((unregisterProxy channel w).1.handles)[idx]? = some hd ∧
          hd.active = false)) ∧
    (truthyReg w channel = false →
      (unregisterProxy channel w).2 = some (.notRegistered channel)) := by
  constructor
  · intro server hreg
    refine ⟨?_, ?_, ?_, ?_⟩
    · simp [unregisterProxy, hreg]
    · simp [unregisterProxy, hreg, List.mem_filter]
    · simp [unregisterProxy, hreg, alookup_aset_self]
    · intro sid idx hmem hlt
      have hh : (unregisterProxy channel w).1.handles =
          server.subscriptions.foldl (fun hs p => cancelAt hs p.2)
            w.handles := by
        simp [unregisterProxy, hreg, unsubscribeAll]
      rw [hh]
      exact foldl_cancelAt_inactive _ _ _ sid hmem hlt
  · intro hf
    rcases hr : alookup w.registrations channel with _ | os
    · simp [unregisterProxy, hr]
    · rcases os with _ | server
      · simp [unregisterProxy, hr]
      · exfalso
        simp [truthyReg, hr] at hf

/-- Witness for C5 at a concrete world: channel chan is registered and
unregisters cleanly; channel nochan is not registered and fails. -/
theorem C5_unregister_witness :
    alookup worldS1.registrations "chan" = some (some handlerS1) ∧
    (unregisterProxy "chan" worldS1).2 = none ∧
    alookup (unregisterProxy "chan" worldS1).1.registrations "chan" =
      some none ∧
    truthyReg worldS1 "nochan" = false ∧
    (unregisterProxy "nochan" worldS1).2 =
      some (.notRegistered "nochan") :=
  ⟨rfl, ((C5_unregister worldS1 "chan").1 handlerS1 rfl).1,
   ((C5_unregister worldS1 "chan").1 handlerS1 rfl).2.2.1, rfl,
   (C5_unregister worldS1 "nochan").2 rfl⟩

/-- Claim C6: registering on a channel whose entry is truthy fails with
the DuplicateRegistration error (throwing before any mutation, so the
table is untouched); registering on a channel with no active
registration inserts a fresh dispatcher bound to the target and
installs the channel listener. -/
theorem C6_register_duplicate (w : ServerWorld) (target : Target)
    (channel : String) :
    (truthyReg w channel = true →
      registerProxy w target channel =
        .error (.duplicateRegistration channel)) ∧
    (truthyReg w channel = false →
      ∃ w', registerProxy w target channel = .ok w' ∧
        alookup w'.registrations channel = some (some ⟨target, []⟩) ∧
        w'.listeners = channel :: w.listeners ∧
        w'.handles = w.handles) := by
  constructor
  · intro ht
    simp [registerProxy, ht]
  · intro hf
    refine ⟨{ registrations :=
                (aset w.registrations channel (some ⟨target, []⟩)),
              listeners := channel :: w.listeners,
              handles := w.handles },
            ?_, alookup_aset_self _ _ _, rfl, rfl⟩
    simp [registerProxy, hf]

/-- Witness for C6 at a concrete world: chan is already registered and
duplicates are refused; chan2 is free and registration inserts the
bound dispatcher. -/
theorem C6_register_duplicate_witness :
    truthyReg worldS1 "chan" = true ∧
    registerProxy worldS1 testTarget "chan" =
      .error (.duplicateRegistration "chan") ∧
    truthyReg worldS1 "chan2" = false ∧
    (∃ w', registerProxy worldS1 testTarget "chan2" = .ok w' ∧
      alookup w'.registrations "chan2" = some (some ⟨testTarget, []⟩) ∧
      w'.listeners = "chan2" :: worldS1.listeners ∧
      w'.handles = worldS1.handles) :=
  ⟨rfl, (C6_register_duplicate worldS1 testTarget "chan").1 rfl, rfl,
   (C6_register_duplicate worldS1 testTarget "chan2").2 rfl⟩

/-- Claim C7: when the sender's destroyed signal fires for an open
subscription, the dispatcher cancels the underlying stream
subscription and removes the table entry, sending nothing; afterwards
no Error, Complete (or Next) message is ever emitted for that
subscription, since the cancelled handle delivers no further
events. -/
theorem C7_destroyed_silent (h : ProxyServerHandler)
    (handles : List Handle) (sid : String) (idx : Nat)
    (hsome : alookup h.subscriptions sid = some idx)
    (hlt : idx < handles.length) :
    (onSenderDestroyed h handles sid).2.2 = [] ∧
    alookup (onSenderDestroyed h handles sid).1.subscriptions sid =
      none ∧
    (∃ hd, ((onSenderDestroyed h handles sid).2.1)[idx]? = some hd ∧
      hd.active = false) ∧
    (∀ e, deliverError (onSenderDestroyed h handles sid).2.1 idx e =
      ((onSenderDestroyed h handles sid).2.1, [])) ∧
    deliverComplete (onSenderDestroyed h handles sid).2.1 idx =
      ((onSenderDestroyed h handles sid).2.1, []) ∧
    (∀ v, deliverNext (onSenderDestroyed h handles sid).2.1 idx v =
      ((onSenderDestroyed h handles sid).2.1, [])) := by
  have hkey : (onSenderDestroyed h handles sid).2.1 =
      cancelAt handles idx := by
    simp [onSenderDestroyed, doUnsubscribe, hsome]
  have hinact : ∃ hd, (cancelAt handles idx)[idx]? = some hd ∧
      hd.active = false := by
    have hg := List.getElem?_eq_getElem hlt
    rw [cancelAt_getElem?, if_pos rfl, hg]
    exact ⟨_, rfl, rfl⟩
  refine ⟨?_, ?_, ?_, ?_, ?_, ?_⟩
  · simp [onSenderDestroyed]
  · simp [onSenderDestroyed, doUnsubscribe, hsome, alookup_aremove_self]
  · rw [hkey]
    exact hinact
  · intro e
    rw [hkey]
    exact deliverError_inactive _ _ _ hinact
  · rw [hkey]
    exact deliverComplete_inactive _ _ hinact
  · intro v
    rw [hkey]
    exact deliverNext_inactive _ _ _ hinact

/-- Witness for C7 at a concrete dispatcher with open subscription
s1. -/
theorem C7_destroyed_silent_witness :
    alookup handlerS1.subscriptions "s1" = some 0 ∧ 0 < handlesS1.length ∧
    (onSenderDestroyed handlerS1 handlesS1 "s1").2.2 = [] ∧
    alookup (onSenderDestroyed handlerS1 handlesS1 "s1").1.subscriptions
      "s1" = none :=
  ⟨rfl, by decide,
   (C7_destroyed_silent handlerS1 handlesS1 "s1" 0 rfl (by decide)).1,
   (C7_destroyed_silent handlerS1 handlesS1 "s1" 0 rfl (by decide)).2.1⟩

/-- Claim C8: an Unsubscribe for an absent subscriptionId fails with
the SubscriptionNotFound error (thrown before any mutation); for a
present id the stored handle is cancelled exactly once (its cancel
count goes from zero to one) and the entry removed, and a subsequent
internal cancellation for the same id is a no-op. -/
theorem C8_unsubscribe_once (h : ProxyServerHandler)
    (handles : List Handle) (sid : String) :
    (alookup h.subscriptions sid = none →
      handleUnsubscribe h handles ⟨sid⟩ =
        .error (.subscriptionNotFound sid)) ∧
    (∀ idx hd, alookup h.subscriptions sid = some idx →
      handles[idx]? = some hd → hd.cancels = 0 →
      handleUnsubscribe h handles ⟨sid⟩ =
        .ok ({ h with subscriptions := (aremove h.subscriptions sid) },
             cancelAt handles idx) ∧
      alookup ({ h with subscriptions := (aremove h.subscriptions sid) } :
          ProxyServerHandler).subscriptions sid = none ∧
      (cancelAt handles idx)[idx]? = some ⟨false, 1, hd.subId⟩ ∧
      doUnsubscribe
          { h with subscriptions := (aremove h.subscriptions sid) }
          (cancelAt handles idx) sid =
        ({ h with subscriptions := (aremove h.subscriptions sid) },
         cancelAt handles idx)) := by
  constructor
  · intro hnone
    simp [handleUnsubscribe, hnone]
  · intro idx hd hsome hget hcz
    refine ⟨?_, alookup_aremove_self _ _, ?_, ?_⟩
    · simp [handleUnsubscribe, hsome, doUnsubscribe]
    · rw [cancelAt_getElem?, if_pos rfl, hget]
      simp [hcz]
    · simp [doUnsubscribe, alookup_aremove_self]

/-- Witness for C8 at a concrete dispatcher: s2 is absent and refused;
s1 is present, cancelled exactly once, and the follow-up internal
cancellation is a no-op. -/
theorem C8_unsubscribe_once_witness :
    alookup handlerS1.subscriptions "s2" = none ∧
    handleUnsubscribe handlerS1 handlesS1 ⟨"s2"⟩ =
      .error (.subscriptionNotFound "s2") ∧
    alookup handlerS1.subscriptions "s1" = some 0 ∧
    handlesS1[0]? = some ⟨true, 0, "s1"⟩ ∧
    (cancelAt handlesS1 0)[0]? = some ⟨false, 1, "s1"⟩ :=
  ⟨rfl, (C8_unsubscribe_once handlerS1 handlesS1 "s2").1 rfl, rfl, rfl,
   ((C8_unsubscribe_once handlerS1 handlesS1 "s1").2 0 ⟨true, 0, "s1"⟩
     rfl rfl rfl).2.2.1⟩

/-- Claim C10: unregistration stores a null entry rather than deleting
the key, the duplicate-registration truthiness check treats a null
entry as absent, and so a fresh registration on the same channel
succeeds afterwards. -/
theorem C10_channel_reusable (w : ServerWorld) (channel : String)
    (server : ProxyServerHandler)
    (hreg : alookup w.registrations channel = some (some server)) :
    alookup (unregisterProxy channel w).1.registrations channel =
      some none ∧
    truthyReg (unregisterProxy channel w).1 channel = false ∧
    (∀ target, ∃ w',
      registerProxy (unregisterProxy channel w).1 target channel =
        .ok w' ∧
      alookup w'.registrations channel = some (some ⟨target, []⟩)) := by
  have hset : alookup (unregisterProxy channel w).1.registrations
      channel = some none := by
    simp [unregisterProxy, hreg, alookup_aset_self]
  refine ⟨hset, ?_, ?_⟩
  · simp [truthyReg, hset]
  · intro target
    have hf : truthyReg (unregisterProxy channel w).1 channel = false := by
      simp [truthyReg, hset]
    refine ⟨{ registrations :=
                (aset (unregisterProxy channel w).1.registrations channel
                  (some ⟨target, []⟩)),
              listeners :=
                channel :: (unregisterProxy channel w).1.listeners,
              handles := (unregisterProxy channel w).1.handles },
            ?_, alookup_aset_self _ _ _⟩
    simp [registerProxy, hf]

/-- Witness for C10 at a concrete world: after unregistering chan the
entry is null, the truthiness check reads it as free, and registering
the test target on chan succeeds. -/
theorem C10_channel_reusable_witness :
    alookup worldS1.registrations "chan" = some (some handlerS1) ∧
    alookup (unregisterProxy "chan" worldS1).1.registrations "chan" =
      some none ∧
    truthyReg (unregisterProxy "chan" worldS1).1 "chan" = false ∧
    (∃ w', registerProxy (unregisterProxy "chan" worldS1).1 testTarget
        "chan" = .ok w' ∧
      alookup w'.registrations "chan" = some (some ⟨testTarget, []⟩)) :=
  ⟨rfl, (C10_channel_reusable worldS1 "chan" handlerS1 rfl).1,
   (C10_channel_reusable worldS1 "chan" handlerS1 rfl).2.1,
   (C10_channel_reusable worldS1 "chan" handlerS1 rfl).2.2 testTarget⟩

end Ipc
